import Mathlib

/-!
Shallow embedding of the DrawDrum backend (app/database.py and app/main.py).

The settings store is a SQLite table `settings`; we model it as an association
list of (id, Row).  Machine time (`get_utc_now`, `CURRENT_TIMESTAMP`) is passed
explicitly as a `Nat` parameter to every operation that stamps `updated_at`;
ISO-8601 UTC strings at a fixed precision compare chronologically, so `Nat`
with `≤` is a faithful abstraction of the stored timestamp order.
Python truthiness (`row["x"] or default`) is modelled by `orDefaultStr` /
`orDefaultNat` (empty string / zero are the falsy values of the types involved).
WebSocket connections are an abstract type with decidable equality; the send
side effect is abstracted by a `fails : α → Bool` oracle saying which
connections raise when sent to.  File-system side effects of the logo endpoints
are recorded as lists of written/deleted file names.
-/

namespace DrawDrum

/-! ### Constants (database.py lines 18-24, main.py lines 25-35) -/

def DEFAULT_TEXT_COLOR : String := "#FFFFFF"
def DEFAULT_TEXT_STYLE : String := "bold"
def DEFAULT_DISPLAY_TEXT_SIZE : Nat := 72
def DEFAULT_TIMER_SIZE : Nat := 48
def DEFAULT_COLUMNS : Nat := 1
def DEFAULT_PRIZE_SIZE : Nat := 72
def DEFAULT_PRIZE_COLOR : String := "#F97316"

def MAX_LOGO_SIZE_MB : Nat := 20

def MAX_LOGO_SIZE_BYTES : Nat := MAX_LOGO_SIZE_MB * 1024 * 1024

/-! ### Settings row (the post-migration schema of table `settings`) -/

/-- One row of the `settings` table, after `init_db` has run all column
migrations (database.py lines 35-73).  `updated_at` is the stamped time. -/
structure Row where
  passport_text : String
  logo_path : String
  text_color : String
  text_style : String
  display_text_size : Nat
  timer_size : Nat
  prize_text : String
  columns : Nat
  prize_size : Nat
  prize_color : String
  updated_at : Nat
deriving DecidableEq, Repr

/-- The settings table: rows keyed by their INTEGER PRIMARY KEY `id`. -/
abbrev Table := List (Nat × Row)

/-- The row inserted by `init_db` when the table is empty (database.py
lines 50-53): explicit values for the base columns, ALTER-TABLE column
defaults for the migrated columns, `CURRENT_TIMESTAMP` (`t0`) for
`updated_at`. -/
def defaultRow (t0 : Nat) : Row :=
  { passport_text := ""
    logo_path := ""
    text_color := DEFAULT_TEXT_COLOR
    text_style := DEFAULT_TEXT_STYLE
    display_text_size := DEFAULT_DISPLAY_TEXT_SIZE
    timer_size := DEFAULT_TIMER_SIZE
    prize_text := ""
    columns := DEFAULT_COLUMNS
    prize_size := DEFAULT_PRIZE_SIZE
    prize_color := DEFAULT_PRIZE_COLOR
    updated_at := t0 }

/-- `init_db` (database.py lines 32-75) at the row level: the
`CREATE TABLE IF NOT EXISTS` and the `ALTER TABLE ... ADD COLUMN` migrations
change only the schema, never the set of rows; the single data effect is the
`INSERT` of row id 1 guarded by `COUNT(*) == 0`. -/
def init_db (t0 : Nat) (tbl : Table) : Table :=
  if tbl.length = 0 then tbl ++ [(1, defaultRow t0)] else tbl

/-! ### get_settings (database.py lines 78-113) -/

/-- Python `value or default` on a string column value. -/
def orDefaultStr (v d : String) : String := if v = "" then d else v

/-- Python `value or default` on an integer column value. -/
def orDefaultNat (v d : Nat) : Nat := if v = 0 then d else v

/-- The dict returned by `get_settings`. `updated_at` is `none` exactly in the
no-row fallback branch. -/
structure SettingsView where
  passport_text : String
  prize_text : String
  logo_path : String
  text_color : String
  text_style : String
  display_text_size : Nat
  timer_size : Nat
  columns : Nat
  prize_size : Nat
  prize_color : String
  updated_at : Option Nat
deriving DecidableEq, Repr

/-- The dict built from a fetched row (database.py lines 88-100).  All eleven
selected columns exist post-migration, so the `if "col" in keys` guards take
their then-branch; the `or`-defaults apply to the falsy values of each
column. -/
def viewOfRow (r : Row) : SettingsView :=
  { passport_text := orDefaultStr r.passport_text ""
    prize_text := r.prize_text
    logo_path := orDefaultStr r.logo_path ""
    text_color := orDefaultStr r.text_color DEFAULT_TEXT_COLOR
    text_style := orDefaultStr r.text_style DEFAULT_TEXT_STYLE
    display_text_size := orDefaultNat r.display_text_size DEFAULT_DISPLAY_TEXT_SIZE
    timer_size := orDefaultNat r.timer_size DEFAULT_TIMER_SIZE
    columns := r.columns
    prize_size := r.prize_size
    prize_color := r.prize_color
    updated_at := some r.updated_at }

/-- The fallback dict returned when `SELECT ... WHERE id = 1` fetches no row
(database.py lines 101-113). -/
def emptyView : SettingsView :=
  { passport_text := ""
    prize_text := ""
    logo_path := ""
    text_color := DEFAULT_TEXT_COLOR
    text_style := DEFAULT_TEXT_STYLE
    display_text_size := DEFAULT_DISPLAY_TEXT_SIZE
    timer_size := DEFAULT_TIMER_SIZE
    columns := DEFAULT_COLUMNS
    prize_size := DEFAULT_PRIZE_SIZE
    prize_color := DEFAULT_PRIZE_COLOR
    updated_at := none }

/-- `get_settings` (database.py lines 78-113). -/
def get_settings (tbl : Table) : SettingsView :=
  match tbl.find? (fun p => p.1 == 1) with
  | some p => viewOfRow p.2
  | none => emptyView

/-! ### Mutations (database.py lines 116-160) -/

/-- Effect of the UPDATE in `update_passport_text` on the targeted row
(database.py lines 119-128): `prize = none` models the Python `prize is None`
branch. -/
def updatePassportRow (text : String) (prize : Option String) (now : Nat)
    (r : Row) : Row :=
  match prize with
  | some p => { r with passport_text := text, prize_text := p, updated_at := now }
  | none => { r with passport_text := text, updated_at := now }

/-- Effect of the UPDATE in `update_logo_path` on the targeted row
(database.py lines 136-139). -/
def updateLogoRow (path : String) (now : Nat) (r : Row) : Row :=
  { r with logo_path := path, updated_at := now }

/-- The `formatting` dict argument of `update_text_formatting`: each key may
be absent (`none`), in which case `dict.get` supplies the default. -/
structure FormattingParams where
  color : Option String
  style : Option String
  displayTextSize : Option Nat
  timerSize : Option Nat
  columns : Option Nat
  prizeSize : Option Nat
  prizeColor : Option String
deriving DecidableEq, Repr

/-- Python truthiness of the `formatting` dict: an empty dict is falsy.  In
this typed model the dict is empty exactly when every key is absent. -/
def FormattingParams.isEmpty (fp : FormattingParams) : Bool :=
  fp.color == none && fp.style == none && fp.displayTextSize == none &&
  fp.timerSize == none && fp.columns == none && fp.prizeSize == none &&
  fp.prizeColor == none

/-- Effect of the UPDATE in `update_text_formatting` on the targeted row
(database.py lines 147-158). -/
def updateFormattingRow (fp : FormattingParams) (now : Nat) (r : Row) : Row :=
  { r with
    text_color := fp.color.getD DEFAULT_TEXT_COLOR
    text_style := fp.style.getD DEFAULT_TEXT_STYLE
    display_text_size := fp.displayTextSize.getD DEFAULT_DISPLAY_TEXT_SIZE
    timer_size := fp.timerSize.getD DEFAULT_TIMER_SIZE
    columns := fp.columns.getD DEFAULT_COLUMNS
    prize_size := fp.prizeSize.getD DEFAULT_PRIZE_SIZE
    prize_color := fp.prizeColor.getD DEFAULT_PRIZE_COLOR
    updated_at := now }

/-- SQL `UPDATE settings SET ... WHERE id = 1`: applies `f` to every row whose
id is 1 and leaves every other row, and the set of ids, untouched. -/
def updateWhereId1 (f : Row → Row) (tbl : Table) : Table :=
  tbl.map (fun p => if p.1 == 1 then (p.1, f p.2) else p)

/-- `update_passport_text` (database.py lines 116-130): runs the UPDATE, then
returns `get_settings` read back from the updated store. -/
def update_passport_text (text : String) (prize : Option String) (now : Nat)
    (tbl : Table) : Table × SettingsView :=
  let t := updateWhereId1 (updatePassportRow text prize now) tbl
  (t, get_settings t)

/-- `update_logo_path` (database.py lines 133-141). -/
def update_logo_path (path : String) (now : Nat) (tbl : Table) :
    Table × SettingsView :=
  let t := updateWhereId1 (updateLogoRow path now) tbl
  (t, get_settings t)

/-- `update_text_formatting` (database.py lines 144-160). -/
def update_text_formatting (fp : FormattingParams) (now : Nat) (tbl : Table) :
    Table × SettingsView :=
  let t := updateWhereId1 (updateFormattingRow fp now) tbl
  (t, get_settings t)

/-! ### Messages (main.py) -/

/-- The `formatting` payload embedded in `init` and `passport_update`
messages (main.py lines 129-137, 267-275, 296-304). -/
structure Formatting where
  color : String
  style : String
  displayTextSize : Nat
  timerSize : Nat
  columns : Nat
  prizeSize : Nat
  prizeColor : String
deriving DecidableEq, Repr

/-- The formatting payload built from a settings dict.  Every key accessed by
`settings.get("...", DEFAULT)` is present in the dict `get_settings` returns,
so each `get` yields the dict's value. -/
def fmtOfView (s : SettingsView) : Formatting :=
  { color := s.text_color
    style := s.text_style
    displayTextSize := s.display_text_size
    timerSize := s.timer_size
    columns := s.columns
    prizeSize := s.prize_size
    prizeColor := s.prize_color }

/-- The JSON messages the server sends over WebSocket, by their `"type"`
field. -/
inductive Msg where
  | init (passport_text prize_text logo_path : String) (formatting : Formatting)
  | passport_update (passport_text prize_text : String) (formatting : Formatting)
  | logo_update (logo_path : String)
  | timer_action (action : String) (duration : Int) (timerSize : Nat)
deriving DecidableEq, Repr

/-- The `"type"` field of a message. -/
def Msg.msgType : Msg → String
  | .init _ _ _ _ => "init"
  | .passport_update _ _ _ => "passport_update"
  | .logo_update _ => "logo_update"
  | .timer_action _ _ _ => "timer_action"

/-! ### ConnectionManager (main.py lines 38-62) -/

section Manager

variable {α : Type} [DecidableEq α]

/-- `ConnectionManager.connect` (main.py lines 44-46): accept, then append to
`active_connections`. -/
def connect (conns : List α) (ws : α) : List α := conns ++ [ws]

/-- `ConnectionManager.disconnect` (main.py lines 48-50): `list.remove`
removes the first occurrence, guarded by a membership test. -/
def disconnect (conns : List α) (ws : α) : List α :=
  if ws ∈ conns then conns.erase ws else conns

/-- The send loop of `ConnectionManager.broadcast` (main.py lines 54-59):
iterate over `active_connections`; a connection whose `send_json` raises is
collected in `disconnected`, the rest receive the message.  Returns
(connections that received the message, `disconnected`), each in iteration
order. -/
def sendAll (fails : α → Bool) : List α → List α × List α
  | [] => ([], [])
  | c :: rest =>
    let (s, d) := sendAll fails rest
    if fails c then (s, c :: d) else (c :: s, d)

/-- `ConnectionManager.broadcast` (main.py lines 52-62): the send loop
followed by `self.disconnect(conn)` for each collected connection.  Returns
(connections that received the message, `active_connections` afterwards). -/
def broadcast (fails : α → Bool) (conns : List α) : List α × List α :=
  let (sent, disc) := sendAll fails conns
  (sent, disc.foldl disconnect conns)

end Manager

/-! ### HTTP and WebSocket handlers (main.py) -/

/-- The request body of `POST /api/passport` and of a WebSocket
`passport_update` message: each key may be absent, `data.get` supplies the
default. -/
structure PassportReq where
  text : Option String
  prize : Option String
  formatting : FormattingParams
deriving DecidableEq, Repr

/-- `GET /api/settings` (main.py lines 106-110). -/
def api_get_settings (tbl : Table) : SettingsView := get_settings tbl

/-- `POST /api/passport` (main.py lines 113-140).  `t1` is the wall-clock
reading inside `update_passport_text`, `t2` the one inside
`update_text_formatting`.  Returns (store afterwards, broadcast message,
settings dict of the JSON response). -/
def api_update_passport (req : PassportReq) (t1 t2 : Nat) (tbl : Table) :
    Table × Msg × SettingsView :=
  let text := req.text.getD ""
  let prize := req.prize.getD ""
  let (tbl1, s1) := update_passport_text text (some prize) t1 tbl
  let (tbl2, s2) :=
    if req.formatting.isEmpty then (tbl1, s1)
    else update_text_formatting req.formatting t2 tbl1
  (tbl2, Msg.passport_update s2.passport_text s2.prize_text (fmtOfView s2), s2)

/-- An incoming WebSocket message, by its `data.get("type", "")` value; any
type other than `passport_update` and `timer_action` falls through the
`if`/`elif` chain (main.py lines 285-314). -/
inductive WsIncoming where
  | passport_update (req : PassportReq)
  | timer_action (action : Option String) (duration : Option Int)
      (timerSize : Option Nat)
  | other (msgType : String)
deriving DecidableEq, Repr

/-- One iteration of the receive loop of `websocket_endpoint` (main.py lines
279-314): returns (store afterwards, messages broadcast).  The WebSocket
`timer_action` default for `timerSize` is 48 (main.py line 313). -/
def ws_handle_message (m : WsIncoming) (t1 t2 : Nat) (tbl : Table) :
    Table × List Msg :=
  match m with
  | .passport_update req =>
    let text := req.text.getD ""
    let prize := req.prize.getD ""
    let (tbl1, s1) := update_passport_text text (some prize) t1 tbl
    let (tbl2, s2) :=
      if req.formatting.isEmpty then (tbl1, s1)
      else update_text_formatting req.formatting t2 tbl1
    (tbl2, [Msg.passport_update s2.passport_text s2.prize_text (fmtOfView s2)])
  | .timer_action action duration timerSize =>
    (tbl, [Msg.timer_action (action.getD "") (duration.getD 0) (timerSize.getD 48)])
  | .other _ => (tbl, [])

/-- The connect phase of `websocket_endpoint` (main.py lines 255-276): the
client is registered, then — before the receive loop delivers anything
else — the `init` snapshot built from `get_settings` is sent to it.  Returns
(registry afterwards, messages sent to the new client before the loop). -/
def ws_on_connect {α : Type} [DecidableEq α] (conns : List α) (ws : α)
    (tbl : Table) : List α × List Msg :=
  let s := get_settings tbl
  (connect conns ws,
   [Msg.init s.passport_text s.prize_text s.logo_path (fmtOfView s)])

/-! ### Logo endpoints (main.py lines 161-239) -/

/-- `allowed_types` (main.py line 165). -/
def allowed_types : List String :=
  ["image/png", "image/jpeg", "image/jpg", "image/gif", "image/webp"]

/-- `os.path.splitext(name)[1]` for a plain file name: the suffix starting at
the last dot, provided some character of the name strictly before that dot is
not itself a dot (leading dots never start an extension). -/
def splitextExt (name : String) : String :=
  let cs := name.toList
  if Char.ofNat 46 ∈ cs then
    let i := cs.length - 1 - cs.reverse.indexOf (Char.ofNat 46)
    if (cs.take i).any (fun ch => ch != Char.ofNat 46) then
      String.mk (cs.drop i)
    else ""
  else ""

/-- Outcome of a logo endpoint: HTTP status, the store afterwards, the upload
files written and deleted, and the messages broadcast. -/
structure UploadOutcome where
  status : Nat
  tbl : Table
  written : List String
  deleted : List String
  broadcasts : List Msg
deriving DecidableEq, Repr

/-- `POST /api/logo` (main.py lines 161-213).  `contentType` and `content`
come from the uploaded file, `origName` is its client-supplied file name,
`freshHex` the `uuid.uuid4().hex[:8]` value, `oldExists` whether the old logo
file is on disk, `now` the wall clock inside `update_logo_path`.  Both
validation failures raise HTTPException(400) before any file or store
effect. -/
def api_upload_logo (contentType : String) (content : String)
    (origName : String) (freshHex : String) (now : Nat) (oldExists : Bool)
    (tbl : Table) : UploadOutcome :=
  if contentType ∉ allowed_types then
    { status := 400, tbl := tbl, written := [], deleted := [], broadcasts := [] }
  else if content.length > MAX_LOGO_SIZE_BYTES then
    { status := 400, tbl := tbl, written := [], deleted := [], broadcasts := [] }
  else
    let old_logo_path := (get_settings tbl).logo_path
    let ext := orDefaultStr (splitextExt origName) ".png"
    let filename := "logo_" ++ freshHex ++ ext
    let deleted :=
      if old_logo_path ≠ "" ∧ oldExists then
        [String.replace old_logo_path "/uploads/" ""]
      else []
    let logo_url := "/uploads/" ++ filename
    let (tbl2, _) := update_logo_path logo_url now tbl
    { status := 200, tbl := tbl2, written := [filename], deleted := deleted,
      broadcasts := [Msg.logo_update logo_url] }

/-- `DELETE /api/logo` (main.py lines 216-239). -/
def api_delete_logo (now : Nat) (fileExists : Bool) (tbl : Table) :
    UploadOutcome :=
  let current_logo := (get_settings tbl).logo_path
  let deleted :=
    if current_logo ≠ "" ∧ fileExists then
      [String.replace current_logo "/uploads/" ""]
    else []
  let (tbl2, _) := update_logo_path "" now tbl
  { status := 200, tbl := tbl2, written := [], deleted := deleted,
    broadcasts := [Msg.logo_update ""] }

/-! ### Database mutation operations as a single step type (for C5, C6) -/

/-- The three mutating database operations. -/
inductive DbOp where
  | passport (text : String) (prize : Option String)
  | logo (path : String)
  | fmt (fp : FormattingParams)
deriving DecidableEq, Repr

/-- The row-level effect of a mutating operation stamped at time `now`. -/
def DbOp.rowFn : DbOp → Nat → Row → Row
  | .passport text prize, now => updatePassportRow text prize now
  | .logo path, now => updateLogoRow path now
  | .fmt fp, now => updateFormattingRow fp now

/-- The table-level effect of a mutating operation: each of
`update_passport_text`, `update_logo_path`, `update_text_formatting` is one
UPDATE with `WHERE id = 1`. -/
def DbOp.apply (op : DbOp) (now : Nat) (tbl : Table) : Table :=
  updateWhereId1 (op.rowFn now) tbl

/-! ### Helper lemmas -/

theorem sendAll_eq_filter {α : Type} (fails : α → Bool) (l : List α) :
    sendAll fails l = (l.filter (fun c => !fails c), l.filter fails) := by
  induction l with
  | nil => rfl
  | cons c rest ih =>
    simp only [sendAll, ih, List.filter_cons]
    cases h : fails c <;> simp [h]

theorem mem_disconnect {α : Type} [DecidableEq α] {l : List α} (h : l.Nodup)
    (x d : α) : x ∈ disconnect l d ↔ x ∈ l ∧ x ≠ d := by
  unfold disconnect
  split
  · rw [h.mem_erase_iff]; exact and_comm
  · rename_i hd
    constructor
    · intro hx
      exact ⟨hx, fun he => hd (he ▸ hx)⟩
    · exact fun hx => hx.1

theorem nodup_disconnect {α : Type} [DecidableEq α] {l : List α} (h : l.Nodup)
    (d : α) : (disconnect l d).Nodup := by
  unfold disconnect
  split
  · exact h.erase d
  · exact h

theorem mem_foldl_disconnect {α : Type} [DecidableEq α] (ds : List α) :
    ∀ (l : List α), l.Nodup →
      ∀ x : α, x ∈ ds.foldl disconnect l ↔ x ∈ l ∧ x ∉ ds := by
  induction ds with
  | nil => simp
  | cons d ds ih =>
    intro l h x
    rw [List.foldl_cons, ih _ (nodup_disconnect h d) x, mem_disconnect h x d,
      List.mem_cons]
    constructor
    · rintro ⟨⟨hx, hne⟩, hnd⟩
      exact ⟨hx, fun hc => hc.elim hne hnd⟩
    · rintro ⟨hx, hnd⟩
      exact ⟨⟨hx, fun he => hnd (Or.inl he)⟩, fun hc => hnd (Or.inr hc)⟩

theorem count_filter_partition {α : Type} [DecidableEq α] (fails : α → Bool)
    (c : α) (l : List α) :
    (l.filter (fun x => !fails x)).count c + (l.filter fails).count c = l.count c := by
  cases h : fails c
  · have h1 : (l.filter (fun x => !fails x)).count c = l.count c :=
      List.count_filter (by simp [h])
    have h2 : (l.filter fails).count c = 0 :=
      List.count_eq_zero.mpr (fun hm => by simp [List.mem_filter, h] at hm)
    omega
  · have h1 : (l.filter fails).count c = l.count c := List.count_filter (by simp [h])
    have h2 : (l.filter (fun x => !fails x)).count c = 0 :=
      List.count_eq_zero.mpr (fun hm => by simp [List.mem_filter, h] at hm)
    omega

theorem broadcast_eq {α : Type} [DecidableEq α] (fails : α → Bool)
    (conns : List α) :
    broadcast fails conns =
      ((sendAll fails conns).1, ((sendAll fails conns).2).foldl disconnect conns) :=
  rfl

theorem rowFn_updated_at (op : DbOp) (now : Nat) (r : Row) :
    (op.rowFn now r).updated_at = now := by
  cases op with
  | passport text prize => cases prize <;> rfl
  | logo path => rfl
  | fmt fp => rfl

/-- Fold step of a run of database mutations: apply one timed operation. -/
def dbStep (r : Row) (p : DbOp × Nat) : Row := p.1.rowFn p.2 r

theorem scanl_dbStep_updated_at (ops : List (DbOp × Nat)) :
    ∀ r : Row,
      (ops.scanl dbStep r).map Row.updated_at = r.updated_at :: ops.map Prod.snd := by
  induction ops with
  | nil => intro r; rfl
  | cons p ops ih =>
    intro r
    simp only [List.scanl_cons, List.singleton_append, List.map_cons]
    rw [ih (dbStep r p)]
    simp only [dbStep, rowFn_updated_at]

/-! ### Claim theorems -/

/-- C9: `update_passport_text` with `prize = None` changes only
`passport_text` and `updated_at` of the settings row; with a non-None prize it
changes only `passport_text`, `prize_text` and `updated_at`.  All other fields
— `logo_path` and the seven formatting fields — are unchanged. -/
theorem update_passport_frame (r : Row) (text : String) (now : Nat) :
    ((updatePassportRow text none now r).passport_text = text ∧
     (updatePassportRow text none now r).updated_at = now ∧
     (updatePassportRow text none now r).prize_text = r.prize_text ∧
     (updatePassportRow text none now r).logo_path = r.logo_path ∧
     (updatePassportRow text none now r).text_color = r.text_color ∧
     (updatePassportRow text none now r).text_style = r.text_style ∧
     (updatePassportRow text none now r).display_text_size = r.display_text_size ∧
     (updatePassportRow text none now r).timer_size = r.timer_size ∧
     (updatePassportRow text none now r).columns = r.columns ∧
     (updatePassportRow text none now r).prize_size = r.prize_size ∧
     (updatePassportRow text none now r).prize_color = r.prize_color) ∧
    ∀ p : String,
      (updatePassportRow text (some p) now r).passport_text = text ∧
      (updatePassportRow text (some p) now r).prize_text = p ∧
      (updatePassportRow text (some p) now r).updated_at = now ∧
      (updatePassportRow text (some p) now r).logo_path = r.logo_path ∧
      (updatePassportRow text (some p) now r).text_color = r.text_color ∧
      (updatePassportRow text (some p) now r).text_style = r.text_style ∧
      (updatePassportRow text (some p) now r).display_text_size = r.display_text_size ∧
      (updatePassportRow text (some p) now r).timer_size = r.timer_size ∧
      (updatePassportRow text (some p) now r).columns = r.columns ∧
      (updatePassportRow text (some p) now r).prize_size = r.prize_size ∧
      (updatePassportRow text (some p) now r).prize_color = r.prize_color :=
  ⟨⟨rfl, rfl, rfl, rfl, rfl, rfl, rfl, rfl, rfl, rfl, rfl⟩,
   fun _ => ⟨rfl, rfl, rfl, rfl, rfl, rfl, rfl, rfl, rfl, rfl, rfl⟩⟩

/-- C10: `ConnectionManager.disconnect` is idempotent on registries where the
websocket occurs at most once (which holds for every reachable registry, each
accepted websocket being a fresh handle): disconnecting a websocket not in
`active_connections` leaves the registry unchanged, disconnecting twice equals
disconnecting once, and the multiplicity of every other connection is
untouched. -/
theorem disconnect_idempotent {α : Type} [DecidableEq α] (l : List α) (c : α)
    (h : l.count c ≤ 1) :
    (c ∉ l → disconnect l c = l) ∧
    disconnect (disconnect l c) c = disconnect l c ∧
    ∀ d : α, d ≠ c → (disconnect l c).count d = l.count d := by
  refine ⟨fun hc => by unfold disconnect; rw [if_neg hc], ?_, ?_⟩
  · by_cases hc : c ∈ l
    · have h1 : disconnect l c = l.erase c := by unfold disconnect; rw [if_pos hc]
      have hcount : (l.erase c).count c = 0 := by
        rw [List.count_erase_self]
        omega
      have hnm : c ∉ l.erase c := by
        intro hmem
        have := List.count_pos_iff.mpr hmem
        omega
      rw [h1]
      unfold disconnect
      rw [if_neg hnm]
    · have h1 : disconnect l c = l := by unfold disconnect; rw [if_neg hc]
      rw [h1, h1]
  · intro d hd
    by_cases hc : c ∈ l
    · unfold disconnect
      rw [if_pos hc, List.count_erase_of_ne hd]
    · unfold disconnect
      rw [if_neg hc]

/-- Witness for C10 at a concrete registry. -/
theorem disconnect_idempotent_witness :
    ([0, 1] : List Nat).count 0 ≤ 1 ∧
    disconnect (disconnect ([0, 1] : List Nat) 0) 0 = disconnect [0, 1] 0 :=
  ⟨by decide, (disconnect_idempotent [0, 1] 0 (by decide)).2.1⟩

/-- C1: on connect, `/ws` registers the client and then — before the receive
loop can deliver anything else — sends it exactly one message, of type
`"init"`, whose `passport_text`, `prize_text`, `logo_path` and seven
formatting fields equal the `get_settings` dict at connect time. -/
theorem init_snapshot_on_connect (tbl : Table) (conns : List Nat) (ws : Nat) :
    (ws_on_connect conns ws tbl).1 = conns ++ [ws] ∧
    (ws_on_connect conns ws tbl).2 =
      [Msg.init (get_settings tbl).passport_text (get_settings tbl).prize_text
        (get_settings tbl).logo_path (fmtOfView (get_settings tbl))] ∧
    (ws_on_connect conns ws tbl).2.length = 1 ∧
    (ws_on_connect conns ws tbl).2.map Msg.msgType = ["init"] ∧
    (fmtOfView (get_settings tbl)).color = (get_settings tbl).text_color ∧
    (fmtOfView (get_settings tbl)).style = (get_settings tbl).text_style ∧
    (fmtOfView (get_settings tbl)).displayTextSize = (get_settings tbl).display_text_size ∧
    (fmtOfView (get_settings tbl)).timerSize = (get_settings tbl).timer_size ∧
    (fmtOfView (get_settings tbl)).columns = (get_settings tbl).columns ∧
    (fmtOfView (get_settings tbl)).prizeSize = (get_settings tbl).prize_size ∧
    (fmtOfView (get_settings tbl)).prizeColor = (get_settings tbl).prize_color :=
  ⟨rfl, rfl, rfl, rfl, rfl, rfl, rfl, rfl, rfl, rfl, rfl⟩

/-- C2: `ConnectionManager.broadcast` attempts the send for every connection
in `active_connections` — the successfully-sent and failed lists partition the
registry by the send oracle — so every registered connection whose send does
not raise receives the message. -/
theorem broadcast_sends_to_all {α : Type} [DecidableEq α] (conns : List α)
    (fails : α → Bool) (c : α) (hc : c ∈ conns) (hf : fails c = false) :
    (sendAll fails conns).1 = conns.filter (fun x => !fails x) ∧
    (sendAll fails conns).2 = conns.filter fails ∧
    c ∈ (broadcast fails conns).1 := by
  refine ⟨congrArg Prod.fst (sendAll_eq_filter fails conns),
    congrArg Prod.snd (sendAll_eq_filter fails conns), ?_⟩
  rw [broadcast_eq, congrArg Prod.fst (sendAll_eq_filter fails conns)]
  exact List.mem_filter.mpr ⟨hc, by simp [hf]⟩

/-- Witness for C2 at a concrete registry and send oracle. -/
theorem broadcast_sends_to_all_witness :
    (0 : Nat) ∈ [0, 1] ∧ (fun c : Nat => c == 1) 0 = false ∧
    0 ∈ (broadcast (fun c : Nat => c == 1) [0, 1]).1 :=
  ⟨by decide, by decide,
   (broadcast_sends_to_all [0, 1] (fun c => c == 1) 0 (by decide) (by decide)).2.2⟩

/-- C7: during a broadcast each registered connection is attempted exactly
once (its multiplicities in the sent and failed lists sum to its multiplicity
in the registry, so a failed send is never retried), it is sent the message at
most once, every connection whose send raised is gone from
`active_connections` by the end of the broadcast, and every connection whose
send succeeded remains registered. -/
theorem broadcast_cleanup {α : Type} [DecidableEq α] (conns : List α)
    (fails : α → Bool) (c : α) (h : conns.Nodup) :
    (sendAll fails conns).1.count c + (sendAll fails conns).2.count c = conns.count c ∧
    (sendAll fails conns).1.count c ≤ 1 ∧
    (fails c = true → c ∉ (broadcast fails conns).2) ∧
    (fails c = false → c ∈ conns → c ∈ (broadcast fails conns).2) := by
  have hs := sendAll_eq_filter fails conns
  have h1 : (sendAll fails conns).1 = conns.filter (fun x => !fails x) :=
    congrArg Prod.fst hs
  have h2 : (sendAll fails conns).2 = conns.filter fails := congrArg Prod.snd hs
  have hrem : ∀ x : α, x ∈ (broadcast fails conns).2 ↔
      x ∈ conns ∧ x ∉ conns.filter fails := by
    intro x
    rw [broadcast_eq, h2]
    exact mem_foldl_disconnect (conns.filter fails) conns h x
  refine ⟨?_, ?_, ?_, ?_⟩
  · rw [h1, h2]
    exact count_filter_partition fails c conns
  · rw [h1]
    have hle := (List.filter_sublist conns (p := fun x => !fails x)).count_le c
    have := List.nodup_iff_count_le_one.mp h c
    omega
  · intro hf hmem
    rw [hrem c] at hmem
    exact hmem.2 (List.mem_filter.mpr ⟨hmem.1, hf⟩)
  · intro hf hc
    rw [hrem c]
    refine ⟨hc, fun hmem => ?_⟩
    have := (List.mem_filter.mp hmem).2
    rw [hf] at this
    exact Bool.false_ne_true this

/-- Witness for C7 at a concrete registry and send oracle. -/
theorem broadcast_cleanup_witness :
    ([0, 1] : List Nat).Nodup ∧
    (sendAll (fun c : Nat => c == 1) [0, 1]).1.count 1 +
      (sendAll (fun c : Nat => c == 1) [0, 1]).2.count 1 = ([0, 1] : List Nat).count 1 ∧
    1 ∉ (broadcast (fun c : Nat => c == 1) [0, 1]).2 ∧
    0 ∈ (broadcast (fun c : Nat => c == 1) [0, 1]).2 := by
  have H0 := broadcast_cleanup [0, 1] (fun c : Nat => c == 1) 0 (by decide)
  have H1 := broadcast_cleanup [0, 1] (fun c : Nat => c == 1) 1 (by decide)
  exact ⟨by decide, H1.1, H1.2.2.1 (by decide), H0.2.2.2 (by decide) (by decide)⟩

/-- C5: `init_db` inserts row id 1 exactly when the table is empty, and each
mutating operation — one SQL UPDATE with `WHERE id = 1` — preserves the number
of rows and their ids, leaves every row with id ≠ 1 untouched, and maps the
well-formed store `[(1, r)]` to `[(1, f r)]`; hence the store always holds
exactly one settings row, with id 1. -/
theorem settings_table_single_row (t0 : Nat) :
    init_db t0 [] = [(1, defaultRow t0)] ∧
    (∀ tbl : Table, tbl ≠ [] → init_db t0 tbl = tbl) ∧
    (∀ (op : DbOp) (now : Nat) (tbl : Table),
      (op.apply now tbl).length = tbl.length ∧
      (op.apply now tbl).map Prod.fst = tbl.map Prod.fst ∧
      ∀ p ∈ tbl, p.1 ≠ 1 → p ∈ op.apply now tbl) ∧
    (∀ (op : DbOp) (now : Nat) (r : Row),
      op.apply now [(1, r)] = [(1, op.rowFn now r)]) := by
  refine ⟨rfl, ?_, ?_, ?_⟩
  · intro tbl h
    unfold init_db
    rw [if_neg (by simpa [List.length_eq_zero] using h)]
  · intro op now tbl
    refine ⟨List.length_map _ _, ?_, ?_⟩
    · rw [DbOp.apply, updateWhereId1, List.map_map]
      apply List.map_congr_left
      intro p _
      by_cases hp : p.1 = 1 <;> simp [hp]
    · intro p hp hne
      rw [DbOp.apply, updateWhereId1]
      refine List.mem_map.mpr ⟨p, hp, ?_⟩
      rw [if_neg (by simpa using hne)]
  · intro op now r
    simp [DbOp.apply, updateWhereId1]

/-- Witness for C5 at concrete tables. -/
theorem settings_table_single_row_witness :
    init_db 5 [] = [(1, defaultRow 5)] ∧
    init_db 5 [(1, defaultRow 0)] = [(1, defaultRow 0)] ∧
    (2, defaultRow 0) ∈
      DbOp.apply (DbOp.logo "x") 3 [(1, defaultRow 0), (2, defaultRow 0)] :=
  ⟨(settings_table_single_row 5).1,
   (settings_table_single_row 5).2.1 _ (by simp),
   ((settings_table_single_row 5).2.2.1 (DbOp.logo "x") 3
     [(1, defaultRow 0), (2, defaultRow 0)]).2.2 (2, defaultRow 0)
     (by simp) (by simp)⟩

/-- C6: every mutating database operation stamps `updated_at` with the wall
clock passed to it, so along any run of mutations whose clock readings do not
decrease (UTC wall time is non-decreasing), the stored `updated_at` never
decreases. -/
theorem updated_at_monotone (r : Row) (ops : List (DbOp × Nat))
    (h : List.Chain' (· ≤ ·) (r.updated_at :: ops.map Prod.snd)) :
    (∀ (op : DbOp) (now : Nat) (s : Row), (op.rowFn now s).updated_at = now) ∧
    List.Chain' (· ≤ ·) ((ops.scanl dbStep r).map Row.updated_at) := by
  refine ⟨rowFn_updated_at, ?_⟩
  rw [scanl_dbStep_updated_at]
  exact h

/-- Witness for C6 on a concrete run of mutations. -/
theorem updated_at_monotone_witness :
    List.Chain' (· ≤ ·) ((defaultRow 0).updated_at ::
      ([(DbOp.logo "x", 1), (DbOp.passport "t" none, 2)].map Prod.snd)) ∧
    List.Chain' (· ≤ ·)
      (([(DbOp.logo "x", 1), (DbOp.passport "t" none, 2)].scanl dbStep
        (defaultRow 0)).map Row.updated_at) :=
  ⟨by simp [defaultRow, List.chain'_cons],
   (updated_at_monotone (defaultRow 0) [(DbOp.logo "x", 1), (DbOp.passport "t" none, 2)]
     (by simp [defaultRow, List.chain'_cons])).2⟩

/-- C4: for both admin paths — `POST /api/passport` and the WebSocket
`passport_update` handler — the broadcast is built from the settings dict read
back from the store after the last mutation: its `passport_text`,
`prize_text` and formatting fields equal `get_settings` of the post-mutation
store (the mutation thus completes before the broadcast is issued). -/
theorem broadcast_matches_readback (req : PassportReq) (t1 t2 : Nat) (tbl : Table) :
    (api_update_passport req t1 t2 tbl).2.1 =
      Msg.passport_update
        (get_settings (api_update_passport req t1 t2 tbl).1).passport_text
        (get_settings (api_update_passport req t1 t2 tbl).1).prize_text
        (fmtOfView (get_settings (api_update_passport req t1 t2 tbl).1)) ∧
    (ws_handle_message (WsIncoming.passport_update req) t1 t2 tbl).2 =
      [Msg.passport_update
        (get_settings (ws_handle_message (WsIncoming.passport_update req) t1 t2 tbl).1).passport_text
        (get_settings (ws_handle_message (WsIncoming.passport_update req) t1 t2 tbl).1).prize_text
        (fmtOfView (get_settings (ws_handle_message (WsIncoming.passport_update req) t1 t2 tbl).1))] := by
  cases h : req.formatting.isEmpty <;>
    simp [api_update_passport, ws_handle_message, update_passport_text,
      update_text_formatting, h]

/-- C3 (amended): `POST /api/passport` and the WebSocket `passport_update`
handler perform the same store mutation and broadcast the same message, and
`GET /api/settings` is the same `get_settings` read the WebSocket snapshot
uses. -/
theorem passport_paths_agree (req : PassportReq) (t1 t2 : Nat) (tbl : Table) :
    ws_handle_message (WsIncoming.passport_update req) t1 t2 tbl =
      ((api_update_passport req t1 t2 tbl).1,
       [(api_update_passport req t1 t2 tbl).2.1]) ∧
    api_get_settings tbl = get_settings tbl := by
  refine ⟨?_, rfl⟩
  cases h : req.formatting.isEmpty <;>
    simp [api_update_passport, ws_handle_message, update_passport_text,
      update_text_formatting, h]

/-- The logo part of C3 as the spec states it: some WebSocket message would
perform the same store mutation and broadcast as `DELETE /api/logo`. -/
def deleteLogoHasWsEquivalent (tbl : Table) (now : Nat) (fileExists : Bool) : Prop :=
  ∃ (m : WsIncoming) (t1 t2 : Nat),
    (ws_handle_message m t1 t2 tbl).1 = (api_delete_logo now fileExists tbl).tbl ∧
    (ws_handle_message m t1 t2 tbl).2 = (api_delete_logo now fileExists tbl).broadcasts

/-- Counterexample to C3 as stated: no WebSocket message performs the store
mutation and `logo_update` broadcast of the logo REST endpoints — the
WebSocket handler only knows `passport_update` and `timer_action`. -/
theorem delete_logo_no_ws_path :
    ¬ deleteLogoHasWsEquivalent [(1, defaultRow 0)] 5 false := by
  rintro ⟨m, t1, t2, h1, h2⟩
  cases m <;>
    simp [ws_handle_message, api_delete_logo, update_logo_path] at h2

/-- C8: `POST /api/logo` rejects a content type outside the allowed image
types, and a payload larger than `MAX_LOGO_SIZE_BYTES = 20 * 1024 * 1024`,
with HTTP 400; in either failure case no file is written, no old logo file is
deleted, the settings store is unchanged, and nothing is broadcast. -/
theorem upload_logo_rejects (contentType content origName freshHex : String)
    (now : Nat) (oldExists : Bool) (tbl : Table)
    (h : contentType ∉ allowed_types ∨ MAX_LOGO_SIZE_BYTES < content.length) :
    MAX_LOGO_SIZE_BYTES = 20 * 1024 * 1024 ∧
    api_upload_logo contentType content origName freshHex now oldExists tbl =
      { status := 400, tbl := tbl, written := [], deleted := [], broadcasts := [] } := by
  refine ⟨rfl, ?_⟩
  unfold api_upload_logo
  by_cases hct : contentType ∈ allowed_types
  · rcases h with h | h
    · exact absurd hct h
    · rw [if_neg (not_not_intro hct), if_pos h]
  · rw [if_pos hct]

/-- Witness for C8 at a concrete rejected upload. -/
theorem upload_logo_rejects_witness :
    ("text/plain" ∉ allowed_types ∨
      MAX_LOGO_SIZE_BYTES < ("c" : String).length) ∧
    api_upload_logo "text/plain" "c" "a.png" "deadbeef" 7 true [] =
      { status := 400, tbl := [], written := [], deleted := [], broadcasts := [] } :=
  ⟨Or.inl (by decide),
   (upload_logo_rejects "text/plain" "c" "a.png" "deadbeef" 7 true []
     (Or.inl (by decide))).2⟩

end DrawDrum
